import Mathlib

/-!
Verification development for the Telegram movie bot (`movie_bot.py`).

The relevant pieces of the program are shallowly embedded as executable Lean
definitions: the MarkdownV2 escaper, the TMDB fetch wrapper's parameter
injection and failure normalisation, the caption renderer, the "this month"
date-range arithmetic, the conversational pending-search flag machine, and the
genre-recommendation callback handler.  Stateful handlers are modelled as pure
functions from their inputs (per-conversation state, incoming text, a transport
oracle) to their outputs (new state and a list of observable effects).
-/

namespace MovieBot

/-! ### Markup escaper (`escape_markdown_v2`) -/

/-- The reserved character set of `escape_markdown_v2` in `movie_bot.py`:
the characters of the Python string `_*[]()~` followed by the backquote
(code 96), `>#+-=|`, the two braces (codes 123 and 125), and `.!`.
The three characters that the task's surface syntax cannot hold literally are
written by code point. -/
def escapeChars : List Char :=
  ['_', '*', '[', ']', '(', ')', '~', Char.ofNat 96, '>', '#', '+', '-', '=',
   '|', Char.ofNat 123, Char.ofNat 125, '.', '!']

/-- `char in escape_chars` from the generator expression. -/
def isReserved (c : Char) : Bool := escapeChars.contains c

/-- The escape marker prepended by the escaper: a single backslash. -/
def bslash : Char := '\\'

/-- One step of the generator expression in `escape_markdown_v2`:
a reserved character becomes backslash-then-character, anything else is kept. -/
def escChar (c : Char) : List Char := if isReserved c then [bslash, c] else [c]

/-- `escape_markdown_v2` on the character list of the input. -/
def escapeList (text : List Char) : List Char := (text.map escChar).flatten

/-- `escape_markdown_v2(text)` from `movie_bot.py` (line 46): joins the
per-character escaping of the input. -/
def escape_markdown_v2 (text : String) : String := String.mk (escapeList text.data)

/-- Helper for `wellEscaped`: scans a character list remembering the previous
character, and checks that every reserved character is immediately preceded by
a backslash. -/
def wellEscapedAux : Option Char → List Char → Bool
  | _, [] => true
  | prev, c :: rest =>
    (!(isReserved c) || (prev == some bslash)) && wellEscapedAux (some c) rest

/-- Every reserved character occurring in the list is immediately preceded by a
backslash (a reserved character at the head fails the check). -/
def wellEscaped (l : List Char) : Bool := wellEscapedAux none l

theorem isReserved_bslash : isReserved bslash = false := by decide

theorem escapeList_nil : escapeList [] = [] := rfl

theorem escapeList_cons (c : Char) (s : List Char) :
    escapeList (c :: s) = escChar c ++ escapeList s := by
  simp [escapeList]

theorem wellEscapedAux_escapeList (s : List Char) :
    ∀ prev, wellEscapedAux prev (escapeList s) = true := by
  induction s with
  | nil => intro prev; rfl
  | cons c rest ih =>
    intro prev
    by_cases h : isReserved c = true
    · rw [escapeList_cons]
      simp only [escChar, h, if_pos]
      simp [wellEscapedAux, isReserved_bslash, h, ih]
    · rw [escapeList_cons]
      simp only [escChar, h, if_neg, Bool.not_eq_true]
      simp [wellEscapedAux, h, ih]

theorem bslash_not_reserved_ne (c : Char) (h : isReserved c = true) : c ≠ bslash := by
  intro he; rw [he] at h; rw [isReserved_bslash] at h; exact Bool.false_ne_true h

theorem count_bslash_escapeList (s : List Char) :
    (escapeList s).count bslash = s.count bslash + s.countP (fun c => isReserved c) := by
  induction s with
  | nil => rfl
  | cons c rest ih =>
    rw [escapeList_cons, List.count_append]
    by_cases h : isReserved c = true
    · have hc : ¬ (c = bslash) := bslash_not_reserved_ne c h
      simp only [escChar, h, if_pos]
      rw [List.count_cons, List.count_cons, List.count_cons, List.countP_cons]
      simp [hc, h, ih]
      omega
    · simp only [escChar, h, if_neg, Bool.not_eq_true]
      rw [List.count_cons, List.count_cons, List.countP_cons]
      simp [h, ih]
      by_cases hc : c = bslash <;> simp [hc] <;> omega

theorem filter_reserved_escapeList (s : List Char) :
    (escapeList s).filter (fun c => isReserved c) = s.filter (fun c => isReserved c) := by
  induction s with
  | nil => rfl
  | cons c rest ih =>
    rw [escapeList_cons, List.filter_append]
    by_cases h : isReserved c = true
    · simp only [escChar, h, if_pos]
      simp [List.filter_cons, h, isReserved_bslash, ih]
    · simp only [escChar, h, if_neg, Bool.not_eq_true]
      simp [List.filter_cons, h, ih]

theorem filter_plain_escapeList (s : List Char) :
    (escapeList s).filter (fun c => !(isReserved c) && !(c == bslash))
      = s.filter (fun c => !(isReserved c) && !(c == bslash)) := by
  induction s with
  | nil => rfl
  | cons c rest ih =>
    rw [escapeList_cons, List.filter_append]
    by_cases h : isReserved c = true
    · simp only [escChar, h, if_pos]
      simp [List.filter_cons, h, isReserved_bslash, ih]
    · simp only [escChar, h, if_neg, Bool.not_eq_true]
      simp [List.filter_cons, h, ih]
      by_cases hc : c = bslash <;> simp [hc]

/-- C1: for every input string, every reserved character of the output of
`escape_markdown_v2` is immediately preceded by a backslash; exactly one
backslash is added per reserved occurrence (the output's backslash count is the
input's plus the number of reserved occurrences); and both the reserved
characters and the remaining ordinary characters keep their relative order and
count (stated as equality of the corresponding filtered subsequences). -/
theorem escape_markdown_v2_correct (s : String) :
    wellEscaped (escape_markdown_v2 s).data = true
    ∧ (escape_markdown_v2 s).data.count bslash
        = s.data.count bslash + s.data.countP (fun c => isReserved c)
    ∧ (escape_markdown_v2 s).data.filter (fun c => isReserved c)
        = s.data.filter (fun c => isReserved c)
    ∧ (escape_markdown_v2 s).data.filter (fun c => !(isReserved c) && !(c == bslash))
        = s.data.filter (fun c => !(isReserved c) && !(c == bslash)) := by
  refine ⟨?_, ?_, ?_, ?_⟩
  · exact wellEscapedAux_escapeList s.data none
  · exact count_bslash_escapeList s.data
  · exact filter_reserved_escapeList s.data
  · exact filter_plain_escapeList s.data

/-! ### Python dictionaries and the TMDB fetch wrapper (`fetch_tmdb_data`) -/

/-- A JSON-ish scalar value as it appears in the query-parameter dictionaries of
`movie_bot.py` (strings such as `'es-ES'`, integers such as `1000`). -/
inductive Val where
  | str (s : String)
  | int (n : Int)
deriving DecidableEq, Repr

/-- A Python `dict` with string keys, modelled as an insertion-ordered
association list (Python 3.7+ dicts preserve insertion order). -/
def Dict : Type := List (String × Val)

instance : DecidableEq Dict := by
  unfold Dict
  infer_instance

instance : Repr Dict := by
  unfold Dict
  infer_instance

/-- `d[k] = v`: updates the value in place when the key exists (keeping its
position, as CPython does), otherwise appends the new pair at the end. -/
def Dict.set (d : Dict) (k : String) (v : Val) : Dict :=
  match d with
  | [] => [(k, v)]
  | (k', v') :: rest =>
      if k' = k then (k, v) :: rest else (k', v') :: Dict.set rest k v

/-- `d.get(k)`: the value at the first matching key, if any. -/
def Dict.get? (d : Dict) (k : String) : Option Val :=
  match d with
  | [] => none
  | (k', v') :: rest => if k' = k then some v' else Dict.get? rest k

/-- The empty dictionary `{}`. -/
def Dict.empty : Dict := []

theorem Dict.get?_set_self (d : Dict) (k : String) (v : Val) :
    (d.set k v).get? k = some v := by
  induction d with
  | nil => simp [Dict.set, Dict.get?]
  | cons p rest ih =>
    by_cases h : p.1 = k
    · simp [Dict.set, Dict.get?, h]
    · simp [Dict.set, Dict.get?, h, ih]

theorem Dict.get?_set_ne (d : Dict) (k k' : String) (v : Val) (h : k' ≠ k) :
    (d.set k v).get? k' = d.get? k' := by
  have hkk : ¬ (k = k') := fun he => h he.symm
  induction d with
  | nil => simp [Dict.set, Dict.get?, hkk]
  | cons p rest ih =>
    by_cases hk : p.1 = k
    · have hk' : ¬ (p.1 = k') := by rw [hk]; exact hkk
      simp [Dict.set, Dict.get?, hk, hk', hkk]
    · simp [Dict.set, Dict.get?, hk, ih]

/-- The TMDB base URL constant from `movie_bot.py`. -/
def TMDB_BASE_URL : String := "https://api.themoviedb.org/3"

/-- The three unconditional assignments at the top of `fetch_tmdb_data`
(lines 34-36): `params['api_key'] = TMDB_API_KEY`,
`params['language'] = 'es-ES'`, `params['include_adult'] = 'false'`. -/
def injectParams (apiKey : String) (params : Dict) : Dict :=
  ((params.set ("api_key") (Val.str apiKey)).set ("language")
      (Val.str ("es-ES"))).set ("include_adult") (Val.str ("false"))

/-- A transport-level failure of the underlying HTTP request, each variant
raising a `requests.exceptions.RequestException` in the source: a timeout, a
non-2xx status surfaced by `raise_for_status()`, or a body that
`response.json()` cannot decode. -/
inductive TransportError where
  | timeout
  | httpStatus (code : Nat)
  | malformedBody
deriving DecidableEq, Repr

/-- `fetch_tmdb_data(endpoint, params)` (lines 31-44).  The network is a
`transport` oracle mapping the request URL and the final query parameters to
either a decoded JSON body or a `TransportError`; the `try/except
RequestException` block of the source becomes the `match`: a successful
response's body is returned and any transport error is logged and replaced by
the empty dict.  A `none` params argument becomes `{}` (line 32-33), and the
three fixed keys are injected before the request is made. -/
def fetch_tmdb_data (apiKey : String) (endpoint : String) (params : Option Dict)
    (transport : String → Dict → Except TransportError Dict) : Dict :=
  match transport (TMDB_BASE_URL ++ ("/") ++ endpoint)
      (injectParams apiKey (params.getD Dict.empty)) with
  | .ok body => body
  | .error _ => Dict.empty

/-- The query parameters actually sent on the wire by `fetch_tmdb_data`. -/
def sentParams (apiKey : String) (params : Option Dict) : Dict :=
  injectParams apiKey (params.getD Dict.empty)

/-- C2: whenever the transport fails on the request that `fetch_tmdb_data`
issues — for any endpoint, any caller parameters and any failure kind (timeout,
non-2xx status or malformed body) — the call returns the empty dict.  No
exception propagates to the caller: the embedding is a total function, because
every `RequestException` branch of the source is caught. -/
theorem fetch_tmdb_data_fail_soft (apiKey endpoint : String) (params : Option Dict)
    (transport : String → Dict → Except TransportError Dict) (e : TransportError)
    (h : transport (TMDB_BASE_URL ++ ("/") ++ endpoint) (sentParams apiKey params)
          = .error e) :
    fetch_tmdb_data apiKey endpoint params transport = Dict.empty := by
  unfold fetch_tmdb_data
  rw [show injectParams apiKey (params.getD Dict.empty) = sentParams apiKey params from rfl]
  rw [h]

theorem fetch_tmdb_data_fail_soft_witness :
    fetch_tmdb_data ("KEY") ("movie/popular") none (fun _ _ => .error .timeout)
      = Dict.empty :=
  fetch_tmdb_data_fail_soft ("KEY") ("movie/popular") none
    (fun _ _ => .error .timeout) .timeout rfl

/-- C7: the parameters sent by `fetch_tmdb_data` always carry the service
credential, the fixed locale and the adult-content exclusion flag — even when
the caller supplied its own values for those keys — and every other
caller-supplied key is left untouched. -/
theorem fetch_tmdb_data_injects_params (apiKey : String) (params : Dict) :
    (sentParams apiKey (some params)).get? ("api_key") = some (Val.str apiKey)
    ∧ (sentParams apiKey (some params)).get? ("language") = some (Val.str ("es-ES"))
    ∧ (sentParams apiKey (some params)).get? ("include_adult") = some (Val.str ("false"))
    ∧ ∀ k : String, k ≠ ("api_key") → k ≠ ("language") → k ≠ ("include_adult") →
        (sentParams apiKey (some params)).get? k = params.get? k := by
  refine ⟨?_, ?_, ?_, ?_⟩
  · unfold sentParams injectParams
    rw [Dict.get?_set_ne _ _ _ _ (by decide), Dict.get?_set_ne _ _ _ _ (by decide),
      Dict.get?_set_self]
  · unfold sentParams injectParams
    rw [Dict.get?_set_ne _ _ _ _ (by decide), Dict.get?_set_self]
  · unfold sentParams injectParams
    rw [Dict.get?_set_self]
  · intro k h1 h2 h3
    unfold sentParams injectParams
    rw [Dict.get?_set_ne _ _ _ _ h3, Dict.get?_set_ne _ _ _ _ h2,
      Dict.get?_set_ne _ _ _ _ h1]
    rfl

theorem fetch_tmdb_data_injects_params_witness :
    (sentParams ("KEY") (some [(("query"), Val.str ("matrix")),
        (("language"), Val.str ("en-US"))])).get? ("query") = some (Val.str ("matrix"))
    ∧ (sentParams ("KEY") (some [(("query"), Val.str ("matrix")),
        (("language"), Val.str ("en-US"))])).get? ("language") = some (Val.str ("es-ES")) :=
  ⟨(fetch_tmdb_data_injects_params ("KEY") [(("query"), Val.str ("matrix")),
      (("language"), Val.str ("en-US"))]).2.2.2 ("query")
      (by decide) (by decide) (by decide),
   (fetch_tmdb_data_injects_params ("KEY") [(("query"), Val.str ("matrix")),
      (("language"), Val.str ("en-US"))]).2.1⟩

/-- The value of the caller-supplied `params` object after `fetch_tmdb_data`
returns.  Python passes the dict by reference and lines 34-36 assign into it,
so for a non-`None` argument the caller's own dictionary is the mutated one;
the function never rebinds `params` in that case. -/
def params_after_call (apiKey : String) (p : Dict) : Dict := injectParams apiKey p

/-- C9: after a call with a non-`None` params dictionary, the caller's own
dictionary holds the three injected keys with the injected values; in
particular a dictionary that lacked one of them is observably mutated (it is
not left unchanged). -/
theorem fetch_tmdb_data_mutates_caller (apiKey : String) (p : Dict) :
    (params_after_call apiKey p).get? ("api_key") = some (Val.str apiKey)
    ∧ (params_after_call apiKey p).get? ("language") = some (Val.str ("es-ES"))
    ∧ (params_after_call apiKey p).get? ("include_adult") = some (Val.str ("false"))
    ∧ (p.get? ("api_key") = none → params_after_call apiKey p ≠ p) := by
  refine ⟨?_, ?_, ?_, ?_⟩
  · unfold params_after_call injectParams
    rw [Dict.get?_set_ne _ _ _ _ (by decide), Dict.get?_set_ne _ _ _ _ (by decide),
      Dict.get?_set_self]
  · unfold params_after_call injectParams
    rw [Dict.get?_set_ne _ _ _ _ (by decide), Dict.get?_set_self]
  · unfold params_after_call injectParams
    rw [Dict.get?_set_self]
  · intro hnone heq
    have h1 : (params_after_call apiKey p).get? ("api_key") = some (Val.str apiKey) := by
      unfold params_after_call injectParams
      rw [Dict.get?_set_ne _ _ _ _ (by decide), Dict.get?_set_ne _ _ _ _ (by decide),
        Dict.get?_set_self]
    rw [heq, hnone] at h1
    exact Option.noConfusion h1

theorem fetch_tmdb_data_mutates_caller_witness :
    (params_after_call ("KEY") Dict.empty).get? ("api_key") = some (Val.str ("KEY"))
    ∧ params_after_call ("KEY") Dict.empty ≠ Dict.empty :=
  ⟨(fetch_tmdb_data_mutates_caller ("KEY") Dict.empty).1,
   (fetch_tmdb_data_mutates_caller ("KEY") Dict.empty).2.2.2 rfl⟩

/-! ### Gregorian dates and the "this month" release range
(`handle_estrenos_callback`, branch `estrenos_mes`) -/

/-- A calendar date as used by `datetime.today()`. -/
structure Date where
  year : Nat
  month : Nat
  day : Nat
deriving DecidableEq, Repr

/-- The proleptic Gregorian leap-year rule implemented by Python's `datetime`. -/
def isLeap (y : Nat) : Bool := (y % 4 == 0 && y % 100 != 0) || y % 400 == 0

/-- Number of days of month `m` of year `y` (Gregorian calendar). -/
def daysInMonth (y m : Nat) : Nat :=
  if m = 2 then (if isLeap y then 29 else 28)
  else if m = 4 ∨ m = 6 ∨ m = 9 ∨ m = 11 then 30
  else 31

/-- A date `datetime` would accept. -/
def Date.valid (d : Date) : Prop :=
  1 ≤ d.year ∧ 1 ≤ d.month ∧ d.month ≤ 12 ∧ 1 ≤ d.day ∧ d.day ≤ daysInMonth d.year d.month

instance (d : Date) : Decidable d.valid := by
  unfold Date.valid
  infer_instance

/-- `today.replace(day=n)`. -/
def replaceDay (d : Date) (n : Nat) : Date := ⟨d.year, d.month, n⟩

/-- The day after `d` (what adding `timedelta(days=1)` yields on a valid date). -/
def nextDay (d : Date) : Date :=
  if d.day < daysInMonth d.year d.month then ⟨d.year, d.month, d.day + 1⟩
  else if d.month < 12 then ⟨d.year, d.month + 1, 1⟩
  else ⟨d.year + 1, 1, 1⟩

/-- `d + timedelta(days=n)`. -/
def addDays : Date → Nat → Date
  | d, 0 => d
  | d, n + 1 => addDays (nextDay d) n

/-- The day before `d` (subtracting `timedelta(days=1)` on a valid date). -/
def prevDay (d : Date) : Date :=
  if 1 < d.day then ⟨d.year, d.month, d.day - 1⟩
  else if 1 < d.month then ⟨d.year, d.month - 1, daysInMonth d.year (d.month - 1)⟩
  else ⟨d.year - 1, 12, 31⟩

/-- Decimal string of `n` left-padded with zeros to `w` digits, as `%m`/`%d`
(width 2) and `%Y` (width 4) of `strftime` render it. -/
def padNat (w n : Nat) : String :=
  String.mk (List.replicate (w - (toString n).length) ('0')) ++ toString n

/-- `strftime('%Y-%m-%d')`. -/
def formatDate (d : Date) : String :=
  padNat 4 d.year ++ ("-") ++ padNat 2 d.month ++ ("-") ++ padNat 2 d.day

/-- `today.replace(day=1).strftime('%Y-%m-%d')` (line 226). -/
def first_day_of_month (today : Date) : String :=
  formatDate (replaceDay today 1)

/-- `(today.replace(day=28) + timedelta(days=4)).replace(day=1)` (line 227). -/
def next_month_first_day (today : Date) : Date :=
  replaceDay (addDays (replaceDay today 28) 4) 1

/-- `(next_month_first_day - timedelta(days=1)).strftime('%Y-%m-%d')` (line 228). -/
def last_day_of_month (today : Date) : String :=
  formatDate (prevDay (next_month_first_day today))

/-- The discovery-query parameters built by the `estrenos_mes` branch of
`handle_estrenos_callback` (lines 230-235). -/
def estrenosMesParams (today : Date) : Dict :=
  [(("primary_release_date.gte"), Val.str (first_day_of_month today)),
   (("primary_release_date.lte"), Val.str (last_day_of_month today)),
   (("sort_by"), Val.str ("popularity.desc")),
   (("region"), Val.str ("ES"))]

theorem prev_next_month_first (today : Date) (h1 : 1 ≤ today.month)
    (h2 : today.month ≤ 12) :
    prevDay (next_month_first_day today)
      = ⟨today.year, today.month, daysInMonth today.year today.month⟩ := by
  obtain ⟨y, m, d⟩ := today
  simp only at h1 h2
  unfold next_month_first_day
  interval_cases m
  · simp [replaceDay, addDays, nextDay, prevDay, daysInMonth]
  · rcases hl : isLeap y with _ | _
    · simp [replaceDay, addDays, nextDay, prevDay, daysInMonth, hl]
    · simp [replaceDay, addDays, nextDay, prevDay, daysInMonth, hl]
  · simp [replaceDay, addDays, nextDay, prevDay, daysInMonth]
  · simp [replaceDay, addDays, nextDay, prevDay, daysInMonth]
  · simp [replaceDay, addDays, nextDay, prevDay, daysInMonth]
  · simp [replaceDay, addDays, nextDay, prevDay, daysInMonth]
  · simp [replaceDay, addDays, nextDay, prevDay, daysInMonth]
  · simp [replaceDay, addDays, nextDay, prevDay, daysInMonth]
  · simp [replaceDay, addDays, nextDay, prevDay, daysInMonth]
  · simp [replaceDay, addDays, nextDay, prevDay, daysInMonth]
  · simp [replaceDay, addDays, nextDay, prevDay, daysInMonth]
  · simp [replaceDay, addDays, nextDay, prevDay, daysInMonth]

/-- C3: for every valid current date, the `estrenos_mes` branch queries the
range from the first day of the current month to its true last day — the
`replace(day=28) + 4 days` trick lands in the following month for every month
length, so subtracting one day yields the correct last day, leap years
included. -/
theorem estrenos_mes_range (today : Date) (h : today.valid) :
    (estrenosMesParams today).get? ("primary_release_date.gte")
      = some (Val.str (formatDate ⟨today.year, today.month, 1⟩))
    ∧ (estrenosMesParams today).get? ("primary_release_date.lte")
      = some (Val.str (formatDate
          ⟨today.year, today.month, daysInMonth today.year today.month⟩)) := by
  obtain ⟨-, h1, h2, -, -⟩ := h
  constructor
  · simp [estrenosMesParams, Dict.get?, first_day_of_month, replaceDay]
  · simp [estrenosMesParams, Dict.get?, last_day_of_month,
      prev_next_month_first today h1 h2]

theorem estrenos_mes_range_witness :
    Date.valid ⟨2024, 2, 15⟩
    ∧ (estrenosMesParams ⟨2024, 2, 15⟩).get? ("primary_release_date.gte")
        = some (Val.str ("2024-02-01"))
    ∧ (estrenosMesParams ⟨2024, 2, 15⟩).get? ("primary_release_date.lte")
        = some (Val.str ("2024-02-29")) :=
  ⟨by decide,
   ((estrenos_mes_range ⟨2024, 2, 15⟩ (by decide)).1.trans (by decide)),
   ((estrenos_mes_range ⟨2024, 2, 15⟩ (by decide)).2.trans (by decide))⟩

/-! ### Movie records and the caption renderer (`send_movie_with_poster`) -/

/-- A catalog record as the handlers receive it from TMDB: a JSON object in
which every field may be absent.  `vote_average` is a JSON number; it is
carried as the decimal string Python's string interpolation would print for it
(the absent-field default `0` prints as `0`), since no claim depends on float
formatting beyond that. -/
structure Movie where
  id : Option Int := none
  title : Option String := none
  overview : Option String := none
  release_date : Option String := none
  vote_average : Option String := none
  poster_path : Option String := none
deriving DecidableEq, Repr, Inhabited

/-- Python string slicing `s[:n]`: the first `n` characters. -/
def pySlice (s : String) (n : Nat) : String := String.mk (s.data.take n)

/-- The TMDB image CDN base URL constant from `movie_bot.py`. -/
def TMDB_IMAGE_BASE_URL : String := "https://image.tmdb.org/t/p/w500"

/-- The `caption_parts` list built by `send_movie_with_poster` (lines 50-67),
before joining and escaping: the optional intro (appended only when the intro
text is truthy, i.e. non-empty), the title line, the release-date line, the
rating line, the synopsis line (overview truncated to 250 characters with an
unconditional `...`), and the TMDB link line appended only when `movie_id` is
truthy (present and non-zero, by Python truthiness of `if movie_id`). -/
def captionParts (movie : Movie) (intro_text : String) : List String :=
  let title := movie.title.getD ("N/A")
  let overview := pySlice (movie.overview.getD ("Sin descripción.")) 250 ++ ("...")
  let release_date := movie.release_date.getD ("N/A")
  let vote_average := movie.vote_average.getD ("0")
  let tmdb_url : Option String :=
    match movie.id with
    | some i => if i = 0 then none
                else some (("https://www.themoviedb.org/movie/") ++ toString i)
    | none => none
  (if intro_text = ("") then [] else [intro_text]) ++
  [("🎬 *") ++ title ++ ("*"),
   ("🗓️ Estreno: ") ++ release_date,
   ("⭐ Puntuación: ") ++ vote_average ++ ("/10"),
   ("📝 Sinopsis: ") ++ overview] ++
  (match tmdb_url with
   | some u => [("[Ver en TMDB](") ++ u ++ (")")]
   | none => [])

/-- The fully assembled, escaped caption: the parts joined by newlines and then
escaped as one unit (lines 69-70). -/
def send_movie_caption (movie : Movie) (intro_text : String) : String :=
  escape_markdown_v2 (String.intercalate ("\n") (captionParts movie intro_text))

/-- The optional image reference: present only when `poster_path` is truthy
(present and non-empty), combined with the CDN base URL (lines 72-76). -/
def posterRef (movie : Movie) : Option String :=
  match movie.poster_path with
  | some p => if p = ("") then none else some (TMDB_IMAGE_BASE_URL ++ p)
  | none => none

theorem str_data_append (a b : String) : (a ++ b).data = a.data ++ b.data := by
  cases a
  cases b
  rfl

theorem str_length_data (s : String) : s.length = s.data.length := rfl

/-- C5: whenever the record carries an overview, the synopsis segment of the
caption is the first (at most) 250 characters of it followed by the 3-character
ellipsis — appended unconditionally, so for an overview of at most 250
characters the segment is the whole overview plus the ellipsis — and the
segment is at most 253 characters long before escaping. -/
theorem sinopsis_segment_truncated (m : Movie) (intro s : String)
    (h : m.overview = some s) :
    (("📝 Sinopsis: ") ++ (pySlice s 250 ++ ("..."))) ∈ captionParts m intro
    ∧ (pySlice s 250 ++ ("...")).length ≤ 253
    ∧ (s.length ≤ 250 → pySlice s 250 ++ ("...") = s ++ ("...")) := by
  refine ⟨?_, ?_, ?_⟩
  · simp [captionParts, h]
  · rw [str_length_data, str_data_append]
    rw [List.length_append]
    have h1 : (pySlice s 250).data.length ≤ 250 := by
      unfold pySlice
      simp [List.length_take_le 250 s.data]
    have h3 : (("...") : String).data.length = 3 := by decide
    omega
  · intro hle
    rw [str_length_data] at hle
    have : (pySlice s 250) = s := by
      unfold pySlice
      rw [List.take_of_length_le hle]
    rw [this]

theorem sinopsis_segment_truncated_witness :
    (("📝 Sinopsis: ") ++ (pySlice ("Hola.") 250 ++ ("...")))
        ∈ captionParts { overview := some ("Hola.") } ("")
    ∧ (pySlice ("Hola.") 250 ++ ("...")).length ≤ 253
    ∧ pySlice ("Hola.") 250 ++ ("...") = ("Hola.") ++ ("...") := by
  have h := sinopsis_segment_truncated { overview := some ("Hola.") } ("") ("Hola.") rfl
  exact ⟨h.1, h.2.1, h.2.2 (by decide)⟩

/-- `startsWithChars l p`: `l` begins with the pattern `p`. -/
def startsWithChars : List Char → List Char → Bool
  | _, [] => true
  | [], _ :: _ => false
  | c :: cs, p :: ps => (c == p) && startsWithChars cs ps

/-- A caption part is an external-link line when it begins with the fixed
`[Ver en TMDB](` text that only the link branch of the renderer produces. -/
def isTmdbLinkLine (s : String) : Bool :=
  startsWithChars s.data (("[Ver en TMDB](") : String).data

theorem linkPat_cons :
    (("[Ver en TMDB](") : String).data
      = ('[') :: (("Ver en TMDB](") : String).data := rfl

theorem startsWithChars_self_append (p rest : List Char) :
    startsWithChars (p ++ rest) p = true := by
  induction p with
  | nil => simp [startsWithChars]
  | cons c cs ih => simp [startsWithChars, ih]

theorem startsWithChars_cons_false {c p : Char} (h : (c == p) = false)
    (cs ps : List Char) : startsWithChars (c :: cs) (p :: ps) = false := by
  simp [startsWithChars, h]

theorem notLink_title (t : String) :
    isTmdbLinkLine (("🎬 *") ++ t ++ ("*")) = false := by
  unfold isTmdbLinkLine
  rw [str_data_append, str_data_append]
  rw [show (("🎬 *") : String).data = ('🎬') :: ((' ') :: ('*') :: []) from rfl]
  rw [linkPat_cons]
  simp only [List.cons_append]
  exact startsWithChars_cons_false (by decide) _ _

theorem notLink_estreno (t : String) :
    isTmdbLinkLine (("🗓️ Estreno: ") ++ t) = false := by
  unfold isTmdbLinkLine
  rw [str_data_append]
  rw [show (("🗓️ Estreno: ") : String).data
      = ('🗓') :: ((("️ Estreno: ") : String).data) from rfl]
  rw [linkPat_cons]
  simp only [List.cons_append]
  exact startsWithChars_cons_false (by decide) _ _

theorem notLink_punt (t : String) :
    isTmdbLinkLine (("⭐ Puntuación: ") ++ t ++ ("/10")) = false := by
  unfold isTmdbLinkLine
  rw [str_data_append, str_data_append]
  rw [show (("⭐ Puntuación: ") : String).data
      = ('⭐') :: (((" Puntuación: ") : String).data) from rfl]
  rw [linkPat_cons]
  simp only [List.cons_append]
  exact startsWithChars_cons_false (by decide) _ _

theorem notLink_sinopsis (t : String) :
    isTmdbLinkLine (("📝 Sinopsis: ") ++ t) = false := by
  unfold isTmdbLinkLine
  rw [str_data_append]
  rw [show (("📝 Sinopsis: ") : String).data
      = ('📝') :: (((" Sinopsis: ") : String).data) from rfl]
  rw [linkPat_cons]
  simp only [List.cons_append]
  exact startsWithChars_cons_false (by decide) _ _

theorem isLink_link (u : String) :
    isTmdbLinkLine (("[Ver en TMDB](") ++ u ++ (")")) = true := by
  unfold isTmdbLinkLine
  rw [str_data_append, str_data_append, List.append_assoc]
  exact startsWithChars_self_append _ _

/-- The counterexample to C6 as stated: the record `{'id': 0}` has an `id`,
yet its caption carries no external-link line, because the source guards the
link with Python truthiness (`if movie_id:`) and `0` is falsy. -/
theorem render_link_iff_counterexample :
    ({ id := some 0 } : Movie).id ≠ none
    ∧ ((captionParts ({ id := some 0 } : Movie) ("")).any isTmdbLinkLine) = false := by
  constructor
  · decide
  · decide

/-- C6 (amended): the caption contains an external-link line if and only if the
record's `id` is present and non-zero (Python truthiness of `if movie_id:`);
a record lacking `id` yields no link line, and `id = 603` yields the link line
for id 603 appended to the fixed base URL.  The intro text is assumed not to
look like a link line itself (in the program it is a fixed sentence or empty). -/
theorem render_link_iff_truthy_id (m : Movie) (intro : String)
    (hintro : isTmdbLinkLine intro = false) :
    ((captionParts m intro).any isTmdbLinkLine = true ↔ ∃ i, m.id = some i ∧ i ≠ 0)
    ∧ (m.id = some 603 →
        ("[Ver en TMDB](https://www.themoviedb.org/movie/603)") ∈ captionParts m intro)
    ∧ (m.id = none → (captionParts m intro).any isTmdbLinkLine = false) := by
  have hany : ∀ (url : Option String),
      ((if intro = ("") then ([] : List String) else [intro]) ++
        [("🎬 *") ++ m.title.getD ("N/A") ++ ("*"),
         ("🗓️ Estreno: ") ++ m.release_date.getD ("N/A"),
         ("⭐ Puntuación: ") ++ m.vote_average.getD ("0") ++ ("/10"),
         ("📝 Sinopsis: ") ++ (pySlice (m.overview.getD ("Sin descripción.")) 250 ++ ("..."))] ++
        (match url with
         | some u => [("[Ver en TMDB](") ++ u ++ (")")]
         | none => [])).any isTmdbLinkLine
      = (match url with | some _ => true | none => false) := by
    intro url
    cases url with
    | some u =>
      by_cases hi : intro = ("") <;>
        simp [hi, hintro, notLink_title, notLink_estreno, notLink_punt,
          notLink_sinopsis, isLink_link]
    | none =>
      by_cases hi : intro = ("") <;>
        simp [hi, hintro, notLink_title, notLink_estreno, notLink_punt,
          notLink_sinopsis]
  refine ⟨?_, ?_, ?_⟩
  · cases hid : m.id with
    | none =>
      rw [show captionParts m intro
          = ((if intro = ("") then ([] : List String) else [intro]) ++
            [("🎬 *") ++ m.title.getD ("N/A") ++ ("*"),
             ("🗓️ Estreno: ") ++ m.release_date.getD ("N/A"),
             ("⭐ Puntuación: ") ++ m.vote_average.getD ("0") ++ ("/10"),
             ("📝 Sinopsis: ") ++ (pySlice (m.overview.getD ("Sin descripción.")) 250 ++ ("..."))] ++
            ([] : List String)) from by simp [captionParts, hid]]
      rw [hany none]
      simp [hid]
    | some i =>
      by_cases hz : i = 0
      · rw [show captionParts m intro
            = ((if intro = ("") then ([] : List String) else [intro]) ++
              [("🎬 *") ++ m.title.getD ("N/A") ++ ("*"),
               ("🗓️ Estreno: ") ++ m.release_date.getD ("N/A"),
               ("⭐ Puntuación: ") ++ m.vote_average.getD ("0") ++ ("/10"),
               ("📝 Sinopsis: ") ++ (pySlice (m.overview.getD ("Sin descripción.")) 250 ++ ("..."))] ++
              ([] : List String)) from by simp [captionParts, hid, hz]]
        rw [hany none]
        simp [hid, hz]
      · rw [show captionParts m intro
            = ((if intro = ("") then ([] : List String) else [intro]) ++
              [("🎬 *") ++ m.title.getD ("N/A") ++ ("*"),
               ("🗓️ Estreno: ") ++ m.release_date.getD ("N/A"),
               ("⭐ Puntuación: ") ++ m.vote_average.getD ("0") ++ ("/10"),
               ("📝 Sinopsis: ") ++ (pySlice (m.overview.getD ("Sin descripción.")) 250 ++ ("..."))] ++
              [("[Ver en TMDB](") ++ (("https://www.themoviedb.org/movie/") ++ toString i) ++ (")")])
            from by simp [captionParts, hid, hz]]
        rw [hany (some (("https://www.themoviedb.org/movie/") ++ toString i))]
        simp [hid, hz]
  · intro hid
    have e : ("[Ver en TMDB](") ++ (("https://www.themoviedb.org/movie/")
        ++ toString (603 : Int)) ++ (")")
        = ("[Ver en TMDB](https://www.themoviedb.org/movie/603)") := rfl
    rw [← e]
    simp [captionParts, hid]
  · intro hid
    rw [show captionParts m intro
        = ((if intro = ("") then ([] : List String) else [intro]) ++
          [("🎬 *") ++ m.title.getD ("N/A") ++ ("*"),
           ("🗓️ Estreno: ") ++ m.release_date.getD ("N/A"),
           ("⭐ Puntuación: ") ++ m.vote_average.getD ("0") ++ ("/10"),
           ("📝 Sinopsis: ") ++ (pySlice (m.overview.getD ("Sin descripción.")) 250 ++ ("..."))] ++
          ([] : List String)) from by simp [captionParts, hid]]
    exact hany none

theorem render_link_iff_truthy_id_witness :
    ((captionParts ({ id := some 603 } : Movie) ("")).any isTmdbLinkLine = true)
    ∧ ("[Ver en TMDB](https://www.themoviedb.org/movie/603)")
        ∈ captionParts ({ id := some 603 } : Movie) ("")
    ∧ ((captionParts ({} : Movie) ("")).any isTmdbLinkLine = false) := by
  have h1 := render_link_iff_truthy_id ({ id := some 603 } : Movie) ("") (by decide)
  have h2 := render_link_iff_truthy_id ({} : Movie) ("") (by decide)
  exact ⟨h1.1.mpr ⟨603, rfl, by decide⟩, h1.2.1 rfl, h2.2.2 rfl⟩

/-- C10: rendering a record with absent fields succeeds (the renderer is a
total function) and uses the fixed defaults: `N/A` for the title, the
`Sin descripción.` text — still followed by the ellipsis — for the overview,
`N/A` for the release date and `0` for the rating; and no image reference is
attached when `poster_path` is absent or empty. -/
theorem render_missing_field_defaults (m : Movie) (intro : String) :
    (m.title = none → ("🎬 *N/A*") ∈ captionParts m intro)
    ∧ (m.overview = none → ("📝 Sinopsis: Sin descripción....") ∈ captionParts m intro)
    ∧ (m.release_date = none → ("🗓️ Estreno: N/A") ∈ captionParts m intro)
    ∧ (m.vote_average = none → ("⭐ Puntuación: 0/10") ∈ captionParts m intro)
    ∧ ((m.poster_path = none ∨ m.poster_path = some ("")) → posterRef m = none) := by
  refine ⟨?_, ?_, ?_, ?_, ?_⟩
  · intro h
    have e : ("🎬 *") ++ ("N/A") ++ ("*") = ("🎬 *N/A*") := rfl
    rw [← e]
    simp [captionParts, h]
  · intro h
    have e : ("📝 Sinopsis: ") ++ (pySlice ("Sin descripción.") 250 ++ ("..."))
        = ("📝 Sinopsis: Sin descripción....") := rfl
    rw [← e]
    simp [captionParts, h]
  · intro h
    have e : ("🗓️ Estreno: ") ++ ("N/A") = ("🗓️ Estreno: N/A") := rfl
    rw [← e]
    simp [captionParts, h]
  · intro h
    have e : ("⭐ Puntuación: ") ++ ("0") ++ ("/10") = ("⭐ Puntuación: 0/10") := rfl
    rw [← e]
    simp [captionParts, h]
  · intro h
    cases h with
    | inl h => simp [posterRef, h]
    | inr h => simp [posterRef, h]

theorem render_missing_field_defaults_witness :
    ("🎬 *N/A*") ∈ captionParts ({} : Movie) ("")
    ∧ ("📝 Sinopsis: Sin descripción....") ∈ captionParts ({} : Movie) ("")
    ∧ ("🗓️ Estreno: N/A") ∈ captionParts ({} : Movie) ("")
    ∧ ("⭐ Puntuación: 0/10") ∈ captionParts ({} : Movie) ("")
    ∧ posterRef ({} : Movie) = none := by
  have h := render_missing_field_defaults ({} : Movie) ("")
  exact ⟨h.1 rfl, h.2.1 rfl, h.2.2.1 rfl, h.2.2.2.1 rfl, h.2.2.2.2 (Or.inl rfl)⟩

/-! ### Handler effects, the pending-search flag (`buscar_pelicula_message_handler`,
`solicitar_busqueda`) and the genre callback (`handle_recomendar_callback`) -/

/-- An observable action a handler performs through the chat transport or the
Metadata Client, in the order the source performs them. -/
inductive Effect where
  | sendMessage (text : String)
  | editMessage (text : String)
  | deleteMessage
  | answerCallback
  | fetchTmdb (endpoint : String) (params : Dict)
  | sendMovie (movie : Movie) (intro_text : String)
deriving DecidableEq, Repr

/-- The per-conversation `context.user_data` state: only the
`esperando_busqueda` pending-search flag is ever stored there (a missing key
reads as falsy, so the state is a plain boolean). -/
structure UserData where
  esperando_busqueda : Bool
deriving DecidableEq, Repr

/-- `_do_search_movie(update, context, query)` (lines 185-199): sends the
transient "processing" message, fetches `search/movie` with the query, deletes
the transient message, then either sends a header plus one message per result
(first 3) or the literal "not found" fallback.  The fetch outcome is the
`results` list extracted from the response (an empty dict or a missing or
empty `results` key all yield `[]`). -/
def do_search_movie (query : String) (results : List Movie) : List Effect :=
  [Effect.sendMessage (escape_markdown_v2 (("Buscando '") ++ query ++ ("'... ⏳"))),
   Effect.fetchTmdb ("search/movie") [(("query"), Val.str query)],
   Effect.deleteMessage] ++
  (if results.isEmpty then
    [Effect.sendMessage (escape_markdown_v2
      (("No encontré películas con el título '") ++ query ++ ("'. 😕")))]
  else
    Effect.sendMessage (escape_markdown_v2
      (("🔍 *Resultados para '") ++ query ++ ("':*")))
      :: (results.take 3).map (fun m => Effect.sendMovie m ("")))

/-- `buscar_pelicula_message_handler` (lines 171-177): a plain-text message is
consumed as a search query only when the pending-search flag is truthy, and the
flag is then cleared; otherwise the handler does nothing (`pass`).  Returns the
conversation state after the handler and the effects it performed. -/
def buscar_pelicula_message_handler (ud : UserData) (text : String)
    (searchResults : String → List Movie) : UserData × List Effect :=
  if ud.esperando_busqueda then
    (⟨false⟩, do_search_movie text (searchResults text))
  else
    (ud, [])

/-- `solicitar_busqueda` (lines 179-182): sets the pending-search flag and asks
for the title. -/
def solicitar_busqueda (_ud : UserData) : UserData × List Effect :=
  (⟨true⟩,
   [Effect.sendMessage (escape_markdown_v2
     ("Ok, ahora escribe el nombre de la película que quieres buscar y envíalo. ✍️"))])

/-- The search queries sent to the Metadata Client among a list of effects. -/
def searchQueries (l : List Effect) : List String :=
  l.filterMap (fun e =>
    match e with
    | Effect.fetchTmdb ep ps =>
        if ep = ("search/movie") then
          match ps.get? ("query") with
          | some (Val.str q) => some q
          | _ => none
        else none
    | _ => none)

theorem searchQueries_map_sendMovie (ms : List Movie) (t : String) :
    searchQueries (ms.map (fun m => Effect.sendMovie m t)) = [] := by
  simp [searchQueries]

theorem searchQueries_do_search (query : String) (results : List Movie) :
    searchQueries (do_search_movie query results) = [query] := by
  by_cases h : results.isEmpty
  · simp [do_search_movie, h, searchQueries, Dict.get?]
  · simp only [do_search_movie, h, if_neg, Bool.not_eq_true]
    simp [searchQueries, Dict.get?]
    intro a ha
    have ha' := List.take_subset 3 _ ha
    rw [List.mem_map] at ha'
    rcases ha' with ⟨m, -, rfl⟩
    rfl

/-- C4: if the pending-search flag is not set, an arbitrary plain-text message
produces no effects at all (no outbound message, no search) and leaves the
state unchanged; if it is set, the message triggers exactly one search — with
the message text as the query — the flag is cleared, and a subsequent
plain-text message produces no further search or output. -/
theorem pending_search_flag_machine (ud : UserData) (text : String)
    (searchResults : String → List Movie) :
    (ud.esperando_busqueda = false →
      buscar_pelicula_message_handler ud text searchResults = (ud, []))
    ∧ (ud.esperando_busqueda = true →
      searchQueries (buscar_pelicula_message_handler ud text searchResults).2 = [text]
      ∧ (buscar_pelicula_message_handler ud text searchResults).1.esperando_busqueda = false
      ∧ ∀ (text2 : String) (searchResults2 : String → List Movie),
          buscar_pelicula_message_handler
            (buscar_pelicula_message_handler ud text searchResults).1 text2 searchResults2
          = ((buscar_pelicula_message_handler ud text searchResults).1, [])) := by
  constructor
  · intro h
    simp [buscar_pelicula_message_handler, h]
  · intro h
    refine ⟨?_, ?_, ?_⟩
    · simp [buscar_pelicula_message_handler, h, searchQueries_do_search]
    · simp [buscar_pelicula_message_handler, h]
    · intro text2 searchResults2
      simp [buscar_pelicula_message_handler, h]

theorem pending_search_flag_machine_witness :
    buscar_pelicula_message_handler ⟨false⟩ ("Matrix") (fun _ => []) = (⟨false⟩, [])
    ∧ searchQueries (buscar_pelicula_message_handler ⟨true⟩ ("Matrix") (fun _ => [])).2
        = [("Matrix")]
    ∧ (buscar_pelicula_message_handler ⟨true⟩ ("Matrix") (fun _ => [])).1.esperando_busqueda
        = false
    ∧ buscar_pelicula_message_handler
        (buscar_pelicula_message_handler ⟨true⟩ ("Matrix") (fun _ => [])).1
        ("Terminator") (fun _ => [])
      = ((buscar_pelicula_message_handler ⟨true⟩ ("Matrix") (fun _ => [])).1, []) := by
  have h1 := pending_search_flag_machine ⟨false⟩ ("Matrix") (fun _ => [])
  have h2 := pending_search_flag_machine ⟨true⟩ ("Matrix") (fun _ => [])
  exact ⟨h1.1 rfl, (h2.2 rfl).1, (h2.2 rfl).2.1,
    (h2.2 rfl).2.2 ("Terminator") (fun _ => [])⟩

/-- Python `str.split(sep)` for a one-character separator: splits at every
occurrence and keeps empty pieces, so the result is always non-empty. -/
def splitChar (sep : Char) : List Char → List (List Char)
  | [] => [[]]
  | c :: rest =>
      let r := splitChar sep rest
      if c = sep then [] :: r
      else
        match r with
        | [] => [[c]]
        | g :: gs => (c :: g) :: gs

/-- Value of a digit list, most significant first. -/
def digitsVal (l : List Char) : Nat :=
  l.foldl (fun a c => 10 * a + (c.toNat - 48)) 0

/-- Python `int(s)` on the strings that can reach it here: an optional sign
followed by at least one decimal digit parses, anything else raises
`ValueError` (modelled as `none`). -/
def parsePyInt (l : List Char) : Option Int :=
  match l with
  | [] => none
  | '-' :: rest =>
      if rest.isEmpty then none
      else if rest.all Char.isDigit then some (-(digitsVal rest : Int)) else none
  | '+' :: rest =>
      if rest.isEmpty then none
      else if rest.all Char.isDigit then some ((digitsVal rest : Int)) else none
  | _ =>
      if l.all Char.isDigit then some ((digitsVal l : Int)) else none

/-- `int(query.data.split('_')[-1])` (line 291): the trailing segment of the
callback payload parsed as an integer genre id; `none` when `int()` would raise
(the `split` result is never empty, so only `ValueError` can occur). -/
def parseGenreId (data : String) : Option Int :=
  parsePyInt ((splitChar ('_') data.data).getLastD [])

/-- `GENRE_MAP.get(genre_id, "Desconocido")` (line 296). -/
def lookupGenre (genreMap : List (Int × String)) (gid : Int) : String :=
  match genreMap with
  | [] => "Desconocido"
  | (i, n) :: rest => if i = gid then n else lookupGenre rest gid

/-- The discovery parameters built for a genre recommendation (lines 301-305). -/
def recomendarParams (gid : Int) : Dict :=
  [(("with_genres"), Val.str (toString gid)),
   (("sort_by"), Val.str ("popularity.desc")),
   (("vote_count.gte"), Val.int 100)]

/-- `handle_recomendar_callback` (lines 286-317): acknowledges the callback,
parses the genre id from the payload — answering with the fixed error message
and returning when `int()` raises — then edits in the "processing" text,
fetches `discover/movie`, deletes the originating message, and either sends one
uniformly chosen recommendation or the "no recommendations" fallback.
`random.choice` is modelled by the `choiceIdx` oracle (reduced modulo the
result count), and the fetch outcome by `discoverResults`. -/
def handle_recomendar_callback (data : String) (genreMap : List (Int × String))
    (discoverResults : Dict → List Movie) (choiceIdx : Nat) : List Effect :=
  Effect.answerCallback ::
  (match parseGenreId data with
   | none =>
     [Effect.editMessage (escape_markdown_v2
       ("Error al procesar la selección de género. 😕"))]
   | some gid =>
     let genreName := lookupGenre genreMap gid
     Effect.editMessage (escape_markdown_v2
       (("Buscando una recomendación de ") ++ genreName ++ ("... ⏳"))) ::
     Effect.fetchTmdb ("discover/movie") (recomendarParams gid) ::
     Effect.deleteMessage ::
     (match discoverResults (recomendarParams gid) with
      | [] =>
        [Effect.sendMessage (escape_markdown_v2
          (("No pude encontrar recomendaciones para el género ") ++ genreName
            ++ (" en este momento. 😕")))]
      | r :: rs =>
        [Effect.sendMovie ((r :: rs).getD (choiceIdx % (r :: rs).length) r)
          (("✨ Te recomiendo esta película de ") ++ genreName ++ (":"))]))

/-- Is the effect a Metadata Client fetch? -/
def isFetchEffect (e : Effect) : Bool :=
  match e with
  | Effect.fetchTmdb _ _ => true
  | _ => false

/-- Is the effect a user-visible outbound message (sent, edited or a movie)? -/
def isOutboundMessage (e : Effect) : Bool :=
  match e with
  | Effect.sendMessage _ => true
  | Effect.editMessage _ => true
  | Effect.sendMovie _ _ => true
  | _ => false

/-- C8: when the trailing segment of the callback payload does not parse as an
integer genre id, the handler recovers locally: its effects are exactly the
callback acknowledgement and one generic error message — so exactly one
outbound message, no network fetch — and it returns normally (the embedding is
total; the `except` clause of the source swallows the `ValueError`). -/
theorem recomendar_malformed_payload (data : String)
    (genreMap : List (Int × String)) (discoverResults : Dict → List Movie)
    (choiceIdx : Nat) (h : parseGenreId data = none) :
    handle_recomendar_callback data genreMap discoverResults choiceIdx
      = [Effect.answerCallback,
         Effect.editMessage (escape_markdown_v2
           ("Error al procesar la selección de género. 😕"))]
    ∧ ((handle_recomendar_callback data genreMap discoverResults choiceIdx).filter
        isFetchEffect).length = 0
    ∧ ((handle_recomendar_callback data genreMap discoverResults choiceIdx).filter
        isOutboundMessage).length = 1 := by
  have he : handle_recomendar_callback data genreMap discoverResults choiceIdx
      = [Effect.answerCallback,
         Effect.editMessage (escape_markdown_v2
           ("Error al procesar la selección de género. 😕"))] := by
    simp [handle_recomendar_callback, h]
  refine ⟨he, ?_, ?_⟩
  · rw [he]; rfl
  · rw [he]; rfl

theorem recomendar_malformed_payload_witness :
    handle_recomendar_callback ("recom_genero_abc") [] (fun _ => []) 0
      = [Effect.answerCallback,
         Effect.editMessage (escape_markdown_v2
           ("Error al procesar la selección de género. 😕"))]
    ∧ ((handle_recomendar_callback ("recom_genero_abc") [] (fun _ => []) 0).filter
        isFetchEffect).length = 0 := by
  have h := recomendar_malformed_payload ("recom_genero_abc") [] (fun _ => []) 0 rfl
  exact ⟨h.1, h.2.1⟩

end MovieBot
